import Mathlib

/-!
Verification of the connection and command-execution layer of the
`snadboy-ssh-docker` repository against its specification.

The Python sources are shallowly embedded: pure string manipulation
(`shlex.split`, `str.strip`, `str.lower`, substring tests) becomes Lean
functions over `List Char`; raising an exception becomes `Except PyErr`;
the external child process spawned by `asyncio.create_subprocess_exec` /
`subprocess.run` is a parameter `run : List String → RunOutcome` supplied
by the environment; the side effects performed on that process (spawn,
kill, reap) are recorded as an explicit action trace.  `dict` state (the
event-stream registry `_event_streams`) becomes a function
`String → Option Nat` plus a table of live child pids.

All embedded functions restrict Python's Unicode-aware `str.strip` /
`str.lower` to their ASCII behaviour; every string reaching them in the
claims is ASCII, where the two agree.
-/

/-! ## Python string primitives -/

/-- The whitespace characters of Python's `str.strip()` (ASCII part:
`' \t\n\r\x0b\x0c'`). -/
def isPyStripSpace (c : Char) : Bool :=
  c = ' ' || c = '\t' || c = '\n' || c = '\r' || c = '\x0b' || c = '\x0c'

/-- `str.strip()` on a character list: drop leading and trailing whitespace. -/
def pyStripL (l : List Char) : List Char :=
  ((l.dropWhile isPyStripSpace).reverse.dropWhile isPyStripSpace).reverse

/-- Python `s.strip()`. -/
def pyStrip (s : String) : String :=
  (pyStripL s.toList).asString

/-- Python `s.lower()` (ASCII: `Char.toLower` maps `A`–`Z` to `a`–`z` and
fixes everything else). -/
def pyLower (s : String) : String :=
  (s.toList.map Char.toLower).asString

/-- Python's substring test `needle in hay`. -/
def pyIn (needle hay : String) : Bool :=
  decide (needle.toList <:+: hay.toList)

/-- Python's `s.startswith(pre)`: `pre` is a string prefix of `s`. -/
def pyStartswith (s pre : String) : Bool :=
  decide (pre.toList <+: s.toList)

/-! ## Python exceptions

The exception classes that the embedded code can raise: the pydantic /
builtin `AttributeError` and `ValueError`, and the package's own classes
from `exceptions.py`.  The payload is the message, which for all of these
is exactly Python's `str(e)`. -/

inductive PyErr
  | attributeError (msg : String)
  | valueError (msg : String)
  | hostNotFoundError (msg : String)
  | sshConnectionError (msg : String)
  | dockerCommandError (msg : String)
  deriving Repr, DecidableEq

/-- Python `str(e)` for the exception classes above. -/
def PyErr.msg : PyErr → String
  | .attributeError m => m
  | .valueError m => m
  | .hostNotFoundError m => m
  | .sshConnectionError m => m
  | .dockerCommandError m => m

/-- Whether the exception is a `DockerCommandError` (the `isinstance`
test used by `client.py`). -/
def PyErr.isDockerCmd : PyErr → Bool
  | .dockerCommandError _ => true
  | _ => false

/-! ## `shlex.split`

A faithful embedding of CPython's `shlex.split(s)` (posix mode,
`whitespace_split=True`, no comments), as a character-by-character state
machine mirroring `shlex.read_token`:

* outside quotes, `' \t\r\n'` separates tokens;
* `'...'` is literal; inside `"..."` a backslash escapes only `\` and `"`,
  otherwise it stays in the token; outside quotes a backslash escapes the
  next character;
* an unterminated quote raises `ValueError("No closing quotation")` and a
  trailing escape raises `ValueError("No escaped character")`;
* a quoted empty string yields an empty token (the `quoted` flag). -/

def isShlexWs (c : Char) : Bool :=
  c = ' ' || c = '\t' || c = '\r' || c = '\n'

inductive LexState
  | fresh
  | word
  | singleQ
  | doubleQ
  | escWord
  | escDquote
  deriving Repr, DecidableEq

/-- The token scanner.  `tok` is the current token's characters in reverse;
`quoted` is CPython's per-token `quoted` flag. -/
def shlexScan : List Char → LexState → List Char → Bool → Except PyErr (List String)
  | [], .fresh, _, _ => .ok []
  | [], .word, tok, quoted =>
      if tok.isEmpty && !quoted then .ok [] else .ok [tok.reverse.asString]
  | [], .singleQ, _, _ => .error (.valueError "No closing quotation")
  | [], .doubleQ, _, _ => .error (.valueError "No closing quotation")
  | [], .escWord, _, _ => .error (.valueError "No escaped character")
  | [], .escDquote, _, _ => .error (.valueError "No escaped character")
  | c :: cs, .fresh, _, _ =>
      if isShlexWs c then shlexScan cs .fresh [] false
      else if c = '\\' then shlexScan cs .escWord [] false
      else if c = '\'' then shlexScan cs .singleQ [] true
      else if c = '"' then shlexScan cs .doubleQ [] true
      else shlexScan cs .word [c] false
  | c :: cs, .word, tok, quoted =>
      if isShlexWs c then
        if tok.isEmpty && !quoted then shlexScan cs .fresh [] false
        else (shlexScan cs .fresh [] false).map (fun ts => tok.reverse.asString :: ts)
      else if c = '\\' then shlexScan cs .escWord tok quoted
      else if c = '\'' then shlexScan cs .singleQ tok true
      else if c = '"' then shlexScan cs .doubleQ tok true
      else shlexScan cs .word (c :: tok) quoted
  | c :: cs, .singleQ, tok, quoted =>
      if c = '\'' then shlexScan cs .word tok quoted
      else shlexScan cs .singleQ (c :: tok) quoted
  | c :: cs, .doubleQ, tok, quoted =>
      if c = '"' then shlexScan cs .word tok quoted
      else if c = '\\' then shlexScan cs .escDquote tok quoted
      else shlexScan cs .doubleQ (c :: tok) quoted
  | c :: cs, .escWord, tok, quoted => shlexScan cs .word (c :: tok) quoted
  | c :: cs, .escDquote, tok, quoted =>
      if c = '\\' || c = '"' then shlexScan cs .doubleQ (c :: tok) quoted
      else shlexScan cs .doubleQ (c :: '\\' :: tok) quoted

instance {ε α : Type} [DecidableEq ε] [DecidableEq α] : DecidableEq (Except ε α) := fun x y =>
  match x, y with
  | .ok a, .ok b => if h : a = b then .isTrue (by rw [h]) else .isFalse (by simp [h])
  | .error a, .error b => if h : a = b then .isTrue (by rw [h]) else .isFalse (by simp [h])
  | .ok _, .error _ => .isFalse (by simp)
  | .error _, .ok _ => .isFalse (by simp)

/-- Python `shlex.split(s)`. -/
def pyShlexSplit (s : String) : Except PyErr (List String) :=
  shlexScan s.toList .fresh [] false

example : pyShlexSplit "ps --format '\x7b\x7bjson .\x7d\x7d'"
    = .ok ["ps", "--format", "\x7b\x7bjson .\x7d\x7d"] := by decide
example : pyShlexSplit "docker ps" = .ok ["docker", "ps"] := by decide
example : pyShlexSplit "" = .ok [] := by decide
example : pyShlexSplit "'" = .error (.valueError "No closing quotation") := by decide
example : pyShlexSplit "a\\ b c" = .ok ["a b", "c"] := by decide
example : pyShlexSplit "--filter \"label=x=y\"" = .ok ["--filter", "label=x=y"] := by decide
example : pyShlexSplit "'' x" = .ok ["", "x"] := by decide
example : pyShlexSplit "a\\" = .error (.valueError "No escaped character") := by decide
example : pyShlexSplit "\"a\\\"b\\c\"" = .ok ["a\"b\\c"] := by decide

/-! ## Data model (`models.py`, `config.py`)

`HostConfig` is the pydantic model of `models.py`.  It declares the fields
`hostname`, `user`, `port`, `key_file`, `description`, `enabled` — and no
`is_local` field; accessing `host_config.is_local` therefore raises
`AttributeError` (pydantic v2's `BaseModel.__getattr__` for an unknown
attribute).  The field validators only constrain construction and do not
matter for the executed paths, so they are not modelled. -/

structure HostConfig where
  hostname : String
  user : String
  port : Nat := 22
  key_file : String
  description : String := ""
  enabled : Bool := true
  deriving Repr, DecidableEq

/-- The Python attribute access `host_config.is_local`: `HostConfig`
declares no such field, so pydantic raises
`AttributeError("'HostConfig' object has no attribute 'is_local'")`. -/
def HostConfig.getattr_is_local (_ : HostConfig) : Except PyErr Bool :=
  .error (.attributeError "'HostConfig' object has no attribute 'is_local'")

structure HostDefaults where
  user : String := "root"
  port : Nat := 22
  key_file : String := "~/.ssh/id_rsa"
  enabled : Bool := true
  deriving Repr, DecidableEq

/-- `HostsConfig` of `config.py`: the `hosts` dict (modelled as an
insertion-ordered association list with unique keys, looked up with
`List.lookup`) and the optional `defaults`. -/
structure HostsConfig where
  hosts : List (String × HostConfig)
  defaults : Option HostDefaults := none
  deriving Repr, DecidableEq

/-- `HostsConfig.get_host_config` (config.py lines 41–61): raise
`ValueError` when the alias is absent; otherwise return the host's config.
The defaults-application loop of the source is the identity: it only
overwrites a field that is missing from `host.model_dump()` or `None`
there, and every `HostConfig` field is present and non-`None` in the dump,
so the reconstructed `HostConfig(**config_dict)` equals `host`. -/
def HostsConfig.get_host_config (cfg : HostsConfig) (host_alias : String) : Except PyErr HostConfig :=
  match cfg.hosts.lookup host_alias with
  | none => .error (.valueError ("Host '" ++ host_alias ++ "' not found in configuration"))
  | some host => .ok host

/-! ## Command building (`connection.py`) -/

/-- Lines 56–57 of `connection.py` (async path): prefix `docker ` unless
the *stripped* command already starts with the string `docker`. -/
def buildDockerCommandAsync (command : String) : String :=
  if !pyStartswith (pyStrip command) "docker" then "docker " ++ command else command

/-- Line 227 of `connection.py` (sync path): prefix `docker ` unless the
raw command already starts with the string `docker`. -/
def buildDockerCommandSync (command : String) : String :=
  if pyStartswith command "docker" then command else "docker " ++ command

/-- Python's `list.insert(i, x)`: insert before index `i`, clamping to the
ends. -/
def pyListInsert {α : Type} (i : Nat) (x : α) (l : List α) : List α :=
  l.take i ++ x :: l.drop i

/-- Lines 60–74 / 231–239 of `connection.py`: the local command is the
token list unchanged; for a remote host `-H` and `ssh://user@hostname` are
inserted at positions 1 and 2 (`cmd_parts.insert(1, "-H")`,
`cmd_parts.insert(2, docker_host)`). -/
def insertRemoteFlags (is_local : Bool) (user hostname : String)
    (cmd_parts : List String) : List String :=
  if is_local then cmd_parts
  else pyListInsert 2 ("ssh://" ++ user ++ "@" ++ hostname) (pyListInsert 1 "-H" cmd_parts)

/-- The argv built from an already-`docker`-prefixed command string:
`shlex.split` then, for a remote host, the `-H` insertion. -/
def buildArgv (is_local : Bool) (user hostname : String) (docker_cmd : String) :
    Except PyErr (List String) :=
  match pyShlexSplit docker_cmd with
  | .error e => .error e
  | .ok cmd_parts => .ok (insertRemoteFlags is_local user hostname cmd_parts)

/-! ## Process execution (`connection.py`) -/

/-- The outcome of running an argv as a child process, supplied by the
environment: normal completion with exit code and captured streams, a hit
timeout (`asyncio.wait_for` raising `TimeoutError` / `subprocess.run`
raising `TimeoutExpired`), or a spawn failure (an `OSError` from
`create_subprocess_exec` / `subprocess.run`, carrying `str(e)`). -/
inductive RunOutcome
  | completed (returncode : Int) (stdout stderr : String)
  | timedOut
  | spawnFailed (msg : String)
  deriving Repr, DecidableEq

/-- The process-lifecycle side effects of one executor call, in order. -/
inductive ProcAction
  | spawn (argv : List String)
  | kill
  | waitReap
  deriving Repr, DecidableEq

/-- Lines 88–92 / 250–254 of `connection.py`: on a nonzero exit code,
strip the stderr text; classify as `SSHConnectionError` when the host is
not local and the lowered text contains `ssh:` or `connection`, else as
`DockerCommandError`. -/
def classifyFailure (is_local : Bool) (stderr : String) : PyErr :=
  let error_msg := pyStrip stderr
  if !is_local && (pyIn "ssh:" (pyLower error_msg) || pyIn "connection" (pyLower error_msg)) then
    .sshConnectionError ("SSH connection failed: " ++ error_msg)
  else
    .dockerCommandError ("Docker command failed: " ++ error_msg)

/-- The `except Exception` handler at lines 101–104 / 260–263: re-raise
`SSHConnectionError` and `DockerCommandError` unchanged, wrap anything
else as `SSHConnectionError("Failed to execute command: " + str(e))`. -/
def wrapExc : PyErr → PyErr
  | .sshConnectionError m => .sshConnectionError m
  | .dockerCommandError m => .dockerCommandError m
  | e => .sshConnectionError ("Failed to execute command: " ++ e.msg)

/-- The `try` block of `execute_docker_command` (connection.py lines
59–104).  Order as in the source: the `host_config.is_local` access (line
60) comes first, then `shlex.split` (line 62 / 71), then the spawn.  Both
raise inside the `try`, so their exceptions reach the `except Exception`
handler and are wrapped by `wrapExc`.  The second component is the trace
of process actions: on timeout the child is killed and then awaited
(lines 96–99) before `DockerCommandError` is raised (line 100). -/
def execute_docker_command_core (getIsLocal : Except PyErr Bool) (user hostname : String)
    (run : List String → RunOutcome) (command : String) (timeout : Nat) :
    Except PyErr String × List ProcAction :=
  match getIsLocal with
  | .error e => (.error (wrapExc e), [])
  | .ok is_local =>
    match pyShlexSplit command with
    | .error e => (.error (wrapExc e), [])
    | .ok cmd_parts =>
      let argv := insertRemoteFlags is_local user hostname cmd_parts
      match run argv with
      | .spawnFailed m => (.error (.sshConnectionError ("Failed to execute command: " ++ m)), [])
      | .timedOut =>
          (.error (.dockerCommandError ("Command timeout after " ++ toString timeout ++ " seconds")),
           [.spawn argv, .kill, .waitReap])
      | .completed rc out err =>
          if rc ≠ 0 then (.error (classifyFailure is_local err), [.spawn argv])
          else (.ok (pyStrip out), [.spawn argv])

/-- `ConnectionPool.execute_docker_command` (connection.py lines 32–104):
explicit membership check raising `HostNotFoundError` (line 50),
`get_host_config` (line 53), the `docker` prefix on the stripped command
(lines 56–57), then the `try` block. -/
def execute_docker_command (cfg : HostsConfig) (run : List String → RunOutcome)
    (host_alias command : String) (timeout : Nat := 30) :
    Except PyErr String × List ProcAction :=
  if (cfg.hosts.lookup host_alias).isNone then
    (.error (.hostNotFoundError ("Host '" ++ host_alias ++ "' not found in configuration")), [])
  else
    match cfg.get_host_config host_alias with
    | .error e => (.error e, [])
    | .ok host_config =>
        execute_docker_command_core host_config.getattr_is_local host_config.user
          host_config.hostname run (buildDockerCommandAsync command) timeout

/-- The body of `execute_docker_command_sync` after `get_host_config`
(connection.py lines 226–263).  Order as in the source: `shlex.split`
(line 228) and the `host_config.is_local` access (line 231) both run
*before* the `try` block, so their exceptions propagate bare; only the
`subprocess.run` call and the classification sit inside the `try`.
`subprocess.run` kills and reaps the child itself when the timeout
expires, then raises `TimeoutExpired`, which line 259 turns into a
`DockerCommandError`. -/
def execute_docker_command_sync_core (getIsLocal : Except PyErr Bool) (user hostname : String)
    (run : List String → RunOutcome) (command : String) (timeout : Nat) :
    Except PyErr String :=
  let docker_cmd := buildDockerCommandSync command
  match pyShlexSplit docker_cmd with
  | .error e => .error e
  | .ok cmd_parts =>
    match getIsLocal with
    | .error e => .error e
    | .ok is_local =>
      let cmd := insertRemoteFlags is_local user hostname cmd_parts
      match run cmd with
      | .spawnFailed m => .error (.sshConnectionError ("Failed to execute command: " ++ m))
      | .timedOut =>
          .error (.dockerCommandError ("Command timeout after " ++ toString timeout ++ " seconds"))
      | .completed rc out err =>
          if rc ≠ 0 then .error (classifyFailure is_local err)
          else .ok (pyStrip out)

/-- `ConnectionPool.execute_docker_command_sync` (connection.py lines
210–263): no membership pre-check — `get_host_config` raises a bare
`ValueError` for an unknown alias (line 224). -/
def execute_docker_command_sync (cfg : HostsConfig) (run : List String → RunOutcome)
    (host_alias command : String) (timeout : Nat := 30) : Except PyErr String :=
  match cfg.get_host_config host_alias with
  | .error e => .error e
  | .ok host_config =>
      execute_docker_command_sync_core host_config.getattr_is_local host_config.user
        host_config.hostname run command timeout

/-! ## Event stream manager (`connection.py` lines 134–179)

The registry `self._event_streams : Dict[str, Process]` is modelled as a
function from alias to the registered child's pid; the pool of spawned,
not-yet-reaped children as a list of pids; `nextPid` numbers fresh
spawns.  The side effects on child processes are recorded as a trace:
`process.kill()`, the reaping `await process.wait()`, and a successful
spawn.  `termGraceful` (a `terminate()` request) is in the action
vocabulary so that its absence from a trace is expressible; the source
never performs it. -/

inductive EvAction
  | termGraceful (pid : Nat)
  | kill (pid : Nat)
  | reap (pid : Nat)
  | spawned (pid : Nat) (argv : List String)
  deriving Repr, DecidableEq

/-- Whether the action is a graceful-termination request. -/
def EvAction.isGraceful : EvAction → Bool
  | .termGraceful _ => true
  | _ => false

structure StreamState where
  streams : String → Option Nat
  live : List Nat
  nextPid : Nat

/-- `ConnectionPool.stop_event_stream` (connection.py lines 169–179): a
no-op when the alias has no registered handle; otherwise `process.kill()`
immediately, `await process.wait()` (reaping the child), and delete the
registry entry. -/
def stop_event_stream (st : StreamState) (host_alias : String) :
    List EvAction × StreamState :=
  match st.streams host_alias with
  | none => ([], st)
  | some pid =>
      ([.kill pid, .reap pid],
       { streams := fun a => if a = host_alias then none else st.streams a,
         live := st.live.erase pid,
         nextPid := st.nextPid })

/-- `ConnectionPool.start_event_stream` (connection.py lines 134–167):
first `await self.stop_event_stream(host_alias)` (line 145), then
`get_host_config` (line 147, a bare `ValueError` for an unknown alias),
then the `host_config.is_local` access (line 150) — both outside the
`try`, so their exceptions propagate bare.  Only when the attribute
access yields a boolean would the events command be built (lines
150–156) and the child spawned and registered (lines 159–164); the spawn
is modelled as always succeeding (the `except` at line 166 would wrap a
spawn failure as `SSHConnectionError`, a path no claim touches). -/
def start_event_stream (cfg : HostsConfig) (st : StreamState) (host_alias : String) :
    Except PyErr Unit × List EvAction × StreamState :=
  let s := stop_event_stream st host_alias
  match cfg.get_host_config host_alias with
  | .error e => (.error e, s.1, s.2)
  | .ok host_config =>
      match host_config.getattr_is_local with
      | .error e => (.error e, s.1, s.2)
      | .ok is_local =>
          let cmd :=
            if is_local then ["docker", "events", "--format", "\x7b\x7bjson .\x7d\x7d"]
            else ["docker", "-H", "ssh://" ++ host_config.user ++ "@" ++ host_config.hostname,
                  "events", "--format", "\x7b\x7bjson .\x7d\x7d"]
          let pid := s.2.nextPid
          (.ok (), s.1 ++ [.spawned pid cmd],
           { streams := fun a => if a = host_alias then some pid else s.2.streams a,
             live := pid :: s.2.live,
             nextPid := pid + 1 })

/-! ## JSON-consuming client operations (`utils.py`, `client.py`)

JSON values are modelled by `PyJson`; Python's `json.loads` — an external
standard-library collaborator — is a parameter
`loads : String → Except String PyJson` (the error side is the
`JSONDecodeError` message).  Numbers are modelled as integers; no claim
evaluates a numeric payload. -/

inductive PyJson
  | null
  | bool (b : Bool)
  | num (n : Int)
  | str (s : String)
  | arr (xs : List PyJson)
  | obj (kvs : List (String × PyJson))

/-- `parse_docker_inspect` (utils.py lines 46–64): parse the output; for a
list return its first element when that is a dict, `None` otherwise, and
the empty list `[]` for an empty list; return a dict as-is; anything else
(including a parse failure) is `None`. -/
def parse_docker_inspect (loads : String → Except String PyJson) (output : String) :
    Option PyJson :=
  match loads output with
  | .error _ => none
  | .ok (.arr []) => some (.arr [])
  | .ok (.arr (x :: _)) =>
      match x with
      | .obj kvs => some (.obj kvs)
      | _ => none
  | .ok (.obj kvs) => some (.obj kvs)
  | .ok _ => none

/-- `parse_docker_events_json` (utils.py lines 67–80): parse one stripped
line; a JSON object is returned, a parse failure or a non-object yields
`None`. -/
def parse_docker_events_json (loads : String → Except String PyJson) (line : String) :
    Option PyJson :=
  match loads (pyStrip line) with
  | .error _ => none
  | .ok (.obj kvs) => some (.obj kvs)
  | .ok _ => none

/-- The Python attribute access `self.connection_pool.stream_docker_events`
performed by `SSHDockerClient.docker_events` (client.py line 260):
`ConnectionPool` (connection.py) defines no such method, so the access
raises `AttributeError`.  The value type is `Empty`: there is no method to
call. -/
def ConnectionPool.getattr_stream_docker_events : Except PyErr Empty :=
  .error (.attributeError "'ConnectionPool' object has no attribute 'stream_docker_events'")

/-- `SSHDockerClient.docker_events` (client.py lines 241–261): the async
generator expands the filter shortcuts and then iterates
`self.connection_pool.stream_docker_events(host, expanded_filters)`; its
body runs at the first iteration, where the attribute access raises. -/
def docker_events (host : String) : Except PyErr (List PyJson) :=
  match ConnectionPool.getattr_stream_docker_events with
  | .error e => .error e
  | .ok e => e.elim

/-- `SSHDockerClient.inspect_container` (client.py lines 188–215) and its
sync twin `inspect_container_sync` (lines 478–497), which differ only in
which pool executor they call: that executor is the parameter `execF`.
On success the output is fed to `parse_docker_inspect`; a
`DockerCommandError` whose message contains `No such object` becomes a
`None` return; every other exception propagates. -/
def inspect_container (execF : String → String → Except PyErr String)
    (loads : String → Except String PyJson) (host container_id : String) :
    Except PyErr (Option PyJson) :=
  match execF host ("inspect " ++ container_id) with
  | .ok output => .ok (parse_docker_inspect loads output)
  | .error (.dockerCommandError m) =>
      if pyIn "No such object" m then .ok none else .error (.dockerCommandError m)
  | .error e => .error e

/-! ## Helper lemmas -/

/-- Tokenizing `docker <c>` emits the token `docker` and then tokenizes
`c` from a fresh state. -/
theorem pyShlexSplit_docker_pre (c : String) :
    pyShlexSplit ("docker " ++ c) = (pyShlexSplit c).map (fun ts => "docker" :: ts) := rfl

theorem insertRemoteFlags_cons (u h x : String) (l : List String) :
    insertRemoteFlags false u h (x :: l)
      = x :: "-H" :: ("ssh://" ++ u ++ "@" ++ h) :: l := rfl

/-- A nonempty needle whose characters all fail `p` is an infix of
`a ++ m` with `a` all-`p` exactly when it is an infix of `m`. -/
theorem infix_append_left_iff {α : Type} (p : α → Bool) (n a m : List α) (hn : n ≠ [])
    (hnp : ∀ c ∈ n, p c = false) (hap : ∀ c ∈ a, p c = true) :
    n <:+: a ++ m ↔ n <:+: m := by
  induction a with
  | nil => simp
  | cons x xs ih =>
      have hxs : ∀ c ∈ xs, p c = true := fun c hc => hap c (by simp [hc])
      constructor
      · intro h
        rcases List.infix_cons_iff.1 h with hpre | hinf
        · exfalso
          cases n with
          | nil => exact hn rfl
          | cons y ys =>
              obtain ⟨t, ht⟩ := hpre
              have hyx : y = x := by simpa using congrArg List.head? ht
              have h1 : p y = false := hnp y (by simp)
              have h2 : p x = true := hap x (by simp)
              rw [hyx] at h1
              rw [h1] at h2
              simp at h2
        · exact (ih hxs).1 hinf
      · intro h
        exact h.trans ⟨x :: xs, [], by simp⟩

/-- Mirror image of `infix_append_left_iff` on the right. -/
theorem infix_append_right_iff {α : Type} (p : α → Bool) (n m b : List α) (hn : n ≠ [])
    (hnp : ∀ c ∈ n, p c = false) (hbp : ∀ c ∈ b, p c = true) :
    n <:+: m ++ b ↔ n <:+: m := by
  have h1 : (n <:+: m ++ b) ↔ (n.reverse <:+: (m ++ b).reverse) := List.reverse_infix.symm
  rw [h1, List.reverse_append]
  rw [infix_append_left_iff p n.reverse b.reverse m.reverse (by simpa using hn)
    (by intro c hc; exact hnp c (List.mem_reverse.1 hc))
    (by intro c hc; exact hbp c (List.mem_reverse.1 hc))]
  exact List.reverse_infix

theorem infix_middle_iff {α : Type} (p : α → Bool) (n a m b : List α) (hn : n ≠ [])
    (hnp : ∀ c ∈ n, p c = false) (hap : ∀ c ∈ a, p c = true) (hbp : ∀ c ∈ b, p c = true) :
    n <:+: a ++ m ++ b ↔ n <:+: m := by
  rw [infix_append_right_iff p n (a ++ m) b hn hnp hbp]
  exact infix_append_left_iff p n a m hn hnp hap

/-- A list is its stripped core surrounded by all-whitespace pieces. -/
theorem strip_decomp (e : List Char) :
    ∃ a b, e = a ++ pyStripL e ++ b
      ∧ (∀ c ∈ a, isPyStripSpace c = true) ∧ (∀ c ∈ b, isPyStripSpace c = true) := by
  refine ⟨e.takeWhile isPyStripSpace,
    ((e.dropWhile isPyStripSpace).reverse.takeWhile isPyStripSpace).reverse, ?_, ?_, ?_⟩
  · unfold pyStripL
    conv_lhs => rw [← List.takeWhile_append_dropWhile isPyStripSpace e]
    rw [List.append_assoc]
    congr 1
    conv_lhs =>
      rw [← List.reverse_reverse (e.dropWhile isPyStripSpace),
        ← List.takeWhile_append_dropWhile isPyStripSpace (e.dropWhile isPyStripSpace).reverse]
    rw [List.reverse_append]
  · exact fun c hc => List.mem_takeWhile_imp hc
  · intro c hc
    rw [List.mem_reverse] at hc
    exact List.mem_takeWhile_imp hc

/-- `Char.toLower` fixes Python's strip whitespace. -/
theorem toLower_of_pyspace (c : Char) (h : isPyStripSpace c = true) : Char.toLower c = c := by
  unfold isPyStripSpace at h
  simp only [Bool.or_eq_true, decide_eq_true_eq] at h
  rcases h with ((((h | h) | h) | h) | h) | h <;> subst h <;> decide

/-- Stripping before lowering does not change whether a nonempty,
whitespace-free needle occurs in the lowered text. -/
theorem infix_map_strip (n e : List Char) (hne : n ≠ [])
    (hnp : ∀ c ∈ n, isPyStripSpace c = false) :
    (n <:+: (pyStripL e).map Char.toLower) ↔ (n <:+: e.map Char.toLower) := by
  obtain ⟨a, b, hd, ha, hb⟩ := strip_decomp e
  have hamap : ∀ c ∈ a.map Char.toLower, isPyStripSpace c = true := by
    intro c hc
    rw [List.mem_map] at hc
    obtain ⟨d, hdmem, rfl⟩ := hc
    rw [toLower_of_pyspace d (ha d hdmem)]
    exact ha d hdmem
  have hbmap : ∀ c ∈ b.map Char.toLower, isPyStripSpace c = true := by
    intro c hc
    rw [List.mem_map] at hc
    obtain ⟨d, hdmem, rfl⟩ := hc
    rw [toLower_of_pyspace d (hb d hdmem)]
    exact hb d hdmem
  have hmid := infix_middle_iff isPyStripSpace n (a.map Char.toLower)
    ((pyStripL e).map Char.toLower) (b.map Char.toLower) hne hnp hamap hbmap
  have he : e.map Char.toLower
      = a.map Char.toLower ++ (pyStripL e).map Char.toLower ++ b.map Char.toLower := by
    rw [← List.map_append, ← List.map_append, ← hd]
  rw [he]
  exact hmid.symm

/-- The command string after the async `docker` prefix rule when the
stripped command does not already start with `docker`. -/
theorem buildDockerCommandAsync_not_pre (c : String)
    (hpre : pyStartswith (pyStrip c) "docker" = false) :
    buildDockerCommandAsync c = "docker " ++ c := by
  unfold buildDockerCommandAsync
  rw [hpre]
  rfl

/-- Case-insensitive substring containment as the claims read it: lower
both texts (Python `str.lower`) and look for the needle anywhere in the
raw, unstripped text. -/
def containsCI (hay needle : String) : Bool :=
  decide ((pyLower needle).toList <:+: (pyLower hay).toList)

/-- The code's test `needle in stderr.strip().lower()` agrees with
case-insensitive containment in the raw stderr, for a nonempty,
whitespace-free, lowercase needle. -/
theorem containsCI_eq_code (err n : String) (hne : n.toList ≠ [])
    (hnp : ∀ c ∈ n.toList, isPyStripSpace c = false)
    (hfix : n.toList.map Char.toLower = n.toList) :
    containsCI err n = pyIn n (pyLower (pyStrip err)) := by
  have lhs_eq : containsCI err n = decide (n.toList <:+: err.toList.map Char.toLower) := by
    show decide ((pyLower n).toList <:+: (pyLower err).toList) = _
    rw [show (pyLower n).toList = n.toList.map Char.toLower from rfl, hfix]
    rfl
  have rhs_eq : pyIn n (pyLower (pyStrip err))
      = decide (n.toList <:+: (pyStripL err.toList).map Char.toLower) := rfl
  rw [lhs_eq, rhs_eq]
  exact (decide_eq_decide.mpr (infix_map_strip n.toList err.toList hne hnp)).symm

theorem containsCI_ssh (err : String) :
    pyIn "ssh:" (pyLower (pyStrip err)) = containsCI err "ssh:" :=
  (containsCI_eq_code err "ssh:" (by decide) (by decide) (by decide)).symm

theorem containsCI_connection (err : String) :
    pyIn "connection" (pyLower (pyStrip err)) = containsCI err "connection" :=
  (containsCI_eq_code err "connection" (by decide) (by decide) (by decide)).symm

/-! ## Concrete fixtures used by witnesses and counterexamples -/

def hostEx : HostConfig :=
  { hostname := "host1", user := "u", key_file := "/root/.ssh/id_rsa" }

def cfgEx : HostsConfig := { hosts := [("h1", hostEx)] }

/-- An environment whose child process always succeeds instantly. -/
def runOkEx : List String → RunOutcome := fun _ => .completed 0 "ok" ""


/-! ## The claims -/

/-- C1: for every configured host alias and every command string, the
async `execute_docker_command` raises
`SSHConnectionError("Failed to execute command: 'HostConfig' object has no
attribute 'is_local'")` and never returns a success value — the
`host_config.is_local` access fails inside the `try` and the catch-all
handler rewraps it; in the sync variant the same access sits before the
`try`, so for every command whose tokenization succeeds the bare
`AttributeError` propagates (amended: a command that `shlex` rejects
instead raises the bare `ValueError` from line 228, which runs first). -/
theorem C1_is_local_failure (cfg : HostsConfig) (run : List String → RunOutcome)
    (host_alias cmd : String) (t : Nat) (hc : HostConfig)
    (hmem : cfg.hosts.lookup host_alias = some hc) :
    (execute_docker_command cfg run host_alias cmd t).1
        = .error (.sshConnectionError
            "Failed to execute command: 'HostConfig' object has no attribute 'is_local'")
  ∧ ∀ parts, pyShlexSplit (buildDockerCommandSync cmd) = .ok parts →
      execute_docker_command_sync cfg run host_alias cmd t
        = .error (.attributeError "'HostConfig' object has no attribute 'is_local'") := by
  have h1 : cfg.get_host_config host_alias = .ok hc := by
    unfold HostsConfig.get_host_config
    rw [hmem]
  constructor
  · unfold execute_docker_command
    rw [hmem, h1]
    rfl
  · intro parts hparts
    simp only [execute_docker_command_sync, execute_docker_command_sync_core, h1, hparts,
      HostConfig.getattr_is_local]

/-- C1 witness: the configured alias `h1` with command `version`. -/
theorem C1_witness :
    (execute_docker_command cfgEx runOkEx "h1" "version" 30).1
        = .error (.sshConnectionError
            "Failed to execute command: 'HostConfig' object has no attribute 'is_local'")
  ∧ execute_docker_command_sync cfgEx runOkEx "h1" "version" 30
        = .error (.attributeError "'HostConfig' object has no attribute 'is_local'") := by
  have h := C1_is_local_failure cfgEx runOkEx "h1" "version" 30 hostEx rfl
  exact ⟨h.1, h.2 ["docker", "version"] rfl⟩

/-- C1 counterexample: with the configured alias `h1` and the command
`'` (an unterminated quote), the sync executor raises the shlex
`ValueError`, not the bare `AttributeError` the claim asserts for every
command string. -/
theorem C1_counterexample :
    execute_docker_command_sync cfgEx runOkEx "h1" "'" 30
        = .error (.valueError "No closing quotation")
  ∧ PyErr.valueError "No closing quotation"
      ≠ PyErr.attributeError "'HostConfig' object has no attribute 'is_local'" :=
  ⟨rfl, by decide⟩

/-- C2: the blocking and non-blocking executors do not have identical
semantics (amended): on any configured alias both fail before any process
runs, the non-blocking one with
`SSHConnectionError("Failed to execute command: ...")` and the blocking
one with the bare `AttributeError` (or the bare shlex `ValueError` when
tokenization fails); on an alias absent from the configuration the
non-blocking one raises `HostNotFoundError` and the blocking one the bare
`ValueError` of `get_host_config`. -/
theorem C2_call_styles_diverge (cfg : HostsConfig) (run : List String → RunOutcome)
    (host_alias cmd : String) (t : Nat) :
    (∀ hc, cfg.hosts.lookup host_alias = some hc →
        (execute_docker_command cfg run host_alias cmd t).1
            = .error (.sshConnectionError
                "Failed to execute command: 'HostConfig' object has no attribute 'is_local'")
      ∧ execute_docker_command_sync cfg run host_alias cmd t
            = .error (match pyShlexSplit (buildDockerCommandSync cmd) with
                | .error e => e
                | .ok _ => .attributeError "'HostConfig' object has no attribute 'is_local'"))
  ∧ (cfg.hosts.lookup host_alias = none →
        (execute_docker_command cfg run host_alias cmd t).1
            = .error (.hostNotFoundError
                ("Host '" ++ host_alias ++ "' not found in configuration"))
      ∧ execute_docker_command_sync cfg run host_alias cmd t
            = .error (.valueError
                ("Host '" ++ host_alias ++ "' not found in configuration"))) := by
  constructor
  · intro hc hmem
    have h1 : cfg.get_host_config host_alias = .ok hc := by
      unfold HostsConfig.get_host_config
      rw [hmem]
    constructor
    · unfold execute_docker_command
      rw [hmem, h1]
      rfl
    · simp only [execute_docker_command_sync, execute_docker_command_sync_core, h1,
        HostConfig.getattr_is_local]
      cases hsp : pyShlexSplit (buildDockerCommandSync cmd) with
      | error e => rfl
      | ok parts => rfl
  · intro hmem
    have h1 : cfg.get_host_config host_alias
        = .error (.valueError ("Host '" ++ host_alias ++ "' not found in configuration")) := by
      unfold HostsConfig.get_host_config
      rw [hmem]
    constructor
    · unfold execute_docker_command
      rw [hmem, h1]
      rfl
    · unfold execute_docker_command_sync
      rw [h1]

/-- C2 witness: the divergence at the configured alias `h1`. -/
theorem C2_witness :
    (execute_docker_command cfgEx runOkEx "h1" "ps" 30).1
        = .error (.sshConnectionError
            "Failed to execute command: 'HostConfig' object has no attribute 'is_local'")
  ∧ execute_docker_command_sync cfgEx runOkEx "h1" "ps" 30
        = .error (.attributeError "'HostConfig' object has no attribute 'is_local'") := by
  have h := (C2_call_styles_diverge cfgEx runOkEx "h1" "ps" 30).1 hostEx rfl
  exact ⟨h.1, h.2⟩

/-- C2 counterexample: on the configured alias `h1` with command `ps`
and an environment whose child would succeed, the two call styles return
different errors, so their semantics are not identical. -/
theorem C2_counterexample :
    (execute_docker_command cfgEx runOkEx "h1" "ps" 30).1
        ≠ execute_docker_command_sync cfgEx runOkEx "h1" "ps" 30 :=
  by decide

/-- C3: for a remote (non-local) target with user `u` and hostname `h`
and a sub-command that does not already carry the `docker` prefix, the
built argv is `docker`, `-H`, `ssh://u@h` at positions 0, 1, 2 followed by
the sub-command's shell-tokenized tokens in order; and for every
sub-command whatsoever, `-H` and `ssh://u@h` sit at positions 1 and 2
with the remaining original tokens in order after them.  No shell is
involved anywhere: the argv list itself is what the environment runs. -/
theorem C3_remote_argv (u h c : String) (toks : List String)
    (hsplit : pyShlexSplit c = .ok toks)
    (hpre : pyStartswith (pyStrip c) "docker" = false) :
    buildArgv false u h (buildDockerCommandAsync c)
      = .ok ("docker" :: "-H" :: ("ssh://" ++ u ++ "@" ++ h) :: toks)
  ∧ ∀ first rest, pyShlexSplit (buildDockerCommandAsync c) = .ok (first :: rest) →
      buildArgv false u h (buildDockerCommandAsync c)
        = .ok (first :: "-H" :: ("ssh://" ++ u ++ "@" ++ h) :: rest) := by
  constructor
  · rw [buildDockerCommandAsync_not_pre c hpre]
    unfold buildArgv
    rw [pyShlexSplit_docker_pre, hsplit]
    show Except.ok (insertRemoteFlags false u h ("docker" :: toks)) = _
    rw [insertRemoteFlags_cons]
  · intro first rest hsp
    unfold buildArgv
    rw [hsp]
    show Except.ok (insertRemoteFlags false u h (first :: rest)) = _
    rw [insertRemoteFlags_cons]

/-- C3 witness: the spec's end-to-end scenario
`execute(h, "ps --format '{{json .}}'")` on remote user `u`, hostname
`host1`: four post-`-H` tokens, the quoted format string one token. -/
theorem C3_witness :
    buildArgv false "u" "host1" (buildDockerCommandAsync "ps --format '\x7b\x7bjson .\x7d\x7d'")
      = .ok ["docker", "-H", "ssh://u@host1", "ps", "--format", "\x7b\x7bjson .\x7d\x7d"] := by
  have h := (C3_remote_argv "u" "host1" "ps --format '\x7b\x7bjson .\x7d\x7d'"
    ["ps", "--format", "\x7b\x7bjson .\x7d\x7d"] rfl rfl).1
  exact h

/-- C4: on completion with a nonzero exit code, both executors classify
the failure as `SSHConnectionError` exactly when the host is not local and
the stderr text contains, case-insensitively, `ssh:` or `connection`; in
every other nonzero-exit case — local hosts included — they raise
`DockerCommandError` whose message carries the stderr text (stripped of
surrounding whitespace, which cannot change either containment test). -/
theorem C4_classification (is_local : Bool) (u h c out err : String) (rc : Int) (t : Nat)
    (parts : List String) (hsplit : pyShlexSplit c = .ok parts) (hrc : rc ≠ 0) :
    (execute_docker_command_core (.ok is_local) u h (fun _ => .completed rc out err) c t).1
        = .error (if !is_local && (containsCI err "ssh:" || containsCI err "connection")
            then .sshConnectionError ("SSH connection failed: " ++ pyStrip err)
            else .dockerCommandError ("Docker command failed: " ++ pyStrip err))
  ∧ ∀ partsS, pyShlexSplit (buildDockerCommandSync c) = .ok partsS →
      execute_docker_command_sync_core (.ok is_local) u h (fun _ => .completed rc out err) c t
        = .error (if !is_local && (containsCI err "ssh:" || containsCI err "connection")
            then .sshConnectionError ("SSH connection failed: " ++ pyStrip err)
            else .dockerCommandError ("Docker command failed: " ++ pyStrip err)) := by
  have hclass : classifyFailure is_local err
      = (if !is_local && (containsCI err "ssh:" || containsCI err "connection")
         then .sshConnectionError ("SSH connection failed: " ++ pyStrip err)
         else .dockerCommandError ("Docker command failed: " ++ pyStrip err)) := by
    simp only [classifyFailure]
    rw [containsCI_ssh, containsCI_connection]
  constructor
  · simp only [execute_docker_command_core, hsplit, if_pos hrc]
    rw [hclass]
  · intro partsS hpartsS
    simp only [execute_docker_command_sync_core, hpartsS, if_pos hrc]
    rw [hclass]

/-- C4 witness: a refused SSH connection on a remote host is classified
as a transport failure. -/
theorem C4_witness :
    (execute_docker_command_core (.ok false) "u" "host1"
        (fun _ => .completed 1 "" "ssh: connect to host host1 port 22: Connection refused")
        "docker ps" 30).1
      = .error (.sshConnectionError
          "SSH connection failed: ssh: connect to host host1 port 22: Connection refused") := by
  have h := (C4_classification false "u" "host1" "docker ps" ""
    "ssh: connect to host host1 port 22: Connection refused" 1 30
    ["docker", "ps"] rfl (by decide)).1
  rw [h]
  rfl

/-- C5 counterexample: a timed-out execution surfaces
`DockerCommandError("Command timeout after 30 seconds")` — the very same
exception class that a genuine command failure uses (second conjunct) —
so the timeout is not a variant distinct from the command-failure
classification, contradicting the claim. -/
theorem C5_counterexample :
    execute_docker_command_core (.ok false) "u" "host1" (fun _ => .timedOut) "docker ps" 30
        = (.error (.dockerCommandError "Command timeout after 30 seconds"),
           [.spawn ["docker", "-H", "ssh://u@host1", "ps"], .kill, .waitReap])
  ∧ (execute_docker_command_core (.ok false) "u" "host1"
        (fun _ => .completed 1 "" "oops") "docker ps" 30).1
        = .error (.dockerCommandError "Docker command failed: oops") :=
  ⟨rfl, rfl⟩

/-- C5 (amended): when the child does not complete within the timeout,
the async executor kills the child and then awaits (reaps) it — the trace
is spawn, kill, reap — before raising
`DockerCommandError("Command timeout after {T} seconds")`; the sync
executor raises the same `DockerCommandError` (its `subprocess.run` kills
and reaps internally).  The timeout is surfaced through the command-
failure exception class, distinguishable only by its message, not as a
distinct variant. -/
theorem C5_timeout_behaviour (b : Bool) (u h c : String) (t : Nat) (parts : List String)
    (hsplit : pyShlexSplit c = .ok parts) :
    execute_docker_command_core (.ok b) u h (fun _ => .timedOut) c t
        = (.error (.dockerCommandError ("Command timeout after " ++ toString t ++ " seconds")),
           [.spawn (insertRemoteFlags b u h parts), .kill, .waitReap])
  ∧ ∀ partsS, pyShlexSplit (buildDockerCommandSync c) = .ok partsS →
      execute_docker_command_sync_core (.ok b) u h (fun _ => .timedOut) c t
        = .error (.dockerCommandError ("Command timeout after " ++ toString t ++ " seconds")) := by
  constructor
  · simp only [execute_docker_command_core, hsplit]
  · intro partsS hpartsS
    simp only [execute_docker_command_sync_core, hpartsS]

/-- C5 witness: a local command that never finishes within 7 seconds. -/
theorem C5_witness :
    execute_docker_command_core (.ok true) "u" "host1" (fun _ => .timedOut) "docker info" 7
      = (.error (.dockerCommandError "Command timeout after 7 seconds"),
         [.spawn ["docker", "info"], .kill, .waitReap]) := by
  have h := (C5_timeout_behaviour true "u" "host1" "docker info" 7 ["docker", "info"] rfl).1
  exact h

/-- C6 (amended): the code tests a *string prefix*, not the first token:
for every sub-command whose stripped text does not start with the string
`docker`, the built argv is `docker` followed by the sub-command's tokens
in order, and prepending is idempotent — building from `docker ps` equals
building from `ps`.  (A command like `dockerx ps`, whose first token is
not `docker` but whose text starts with `docker`, is left unprefixed; see
the counterexample.) -/
theorem C6_prepend (u h c : String) (toks : List String)
    (hsplit : pyShlexSplit c = .ok toks)
    (hpre : pyStartswith (pyStrip c) "docker" = false) :
    buildArgv true u h (buildDockerCommandAsync c) = .ok ("docker" :: toks)
  ∧ buildArgv true u h (buildDockerCommandAsync "docker ps")
      = buildArgv true u h (buildDockerCommandAsync "ps") := by
  constructor
  · rw [buildDockerCommandAsync_not_pre c hpre]
    unfold buildArgv
    rw [pyShlexSplit_docker_pre, hsplit]
    rfl
  · rfl

/-- C6 witness: `ps -a` is prefixed and tokenized in order, and the
`docker ps` / `ps` builds agree. -/
theorem C6_witness :
    buildArgv true "u" "h" (buildDockerCommandAsync "ps -a") = .ok ["docker", "ps", "-a"]
  ∧ buildArgv true "u" "h" (buildDockerCommandAsync "docker ps")
      = buildArgv true "u" "h" (buildDockerCommandAsync "ps") := by
  have h := C6_prepend "u" "h" "ps -a" ["ps", "-a"] rfl rfl
  exact ⟨h.1, h.2⟩

/-- C6 counterexample: `dockerx ps` does not begin with the literal
*token* `docker` (its first token is `dockerx`), yet the builder leaves
it unprefixed because the *string* starts with `docker`; the built argv's
first token is `dockerx`, not `docker`, refuting the claim as stated. -/
theorem C6_counterexample :
    pyShlexSplit "dockerx ps" = .ok ["dockerx", "ps"]
  ∧ buildArgv true "u" "h" (buildDockerCommandAsync "dockerx ps") = .ok ["dockerx", "ps"]
  ∧ ("dockerx" : String) ≠ "docker" :=
  ⟨rfl, rfl, by decide⟩

def streamStateEmpty : StreamState := { streams := fun _ => none, live := [], nextPid := 0 }

/-- Stopping an alias with no registered handle is a no-op. -/
theorem stop_event_stream_none (st : StreamState) (a : String) (h : st.streams a = none) :
    stop_event_stream st a = ([], st) := by
  unfold stop_event_stream
  rw [h]

/-- C7: evaluating the code on the claim's scenario — two successive
`start_event_stream("h1")` calls without an intervening stop, on a pool
whose configuration contains `h1`.  Each call stops any old handle and
then raises the bare `AttributeError` from the `is_local` access before
building the events command, so nothing is ever spawned or registered:
both calls return the error with an empty action trace and leave the
registry empty and the live-process table empty — zero live processes for
the alias, where the claim promises exactly one. -/
theorem C7_start_twice_eval :
    start_event_stream cfgEx streamStateEmpty "h1"
        = (.error (.attributeError "'HostConfig' object has no attribute 'is_local'"),
           [], streamStateEmpty)
  ∧ start_event_stream cfgEx (start_event_stream cfgEx streamStateEmpty "h1").2.2 "h1"
        = (.error (.attributeError "'HostConfig' object has no attribute 'is_local'"),
           [], streamStateEmpty) :=
  ⟨rfl, rfl⟩

/-- C8 counterexample: on a registry holding a handle (pid 1) for `h1`,
`stop_event_stream` immediately force-kills and then reaps — its trace is
`[kill 1, reap 1]`, beginning with the kill and containing no
graceful-termination request at all — refuting the claimed
graceful-then-escalate sequence. -/
theorem C8_counterexample :
    (stop_event_stream
        { streams := fun a => if a = "h1" then some 1 else none, live := [1], nextPid := 2 }
        "h1").1
      = [.kill 1, .reap 1]
  ∧ ((stop_event_stream
        { streams := fun a => if a = "h1" then some 1 else none, live := [1], nextPid := 2 }
        "h1").1.filter EvAction.isGraceful) = [] :=
  ⟨rfl, rfl⟩

/-- C8 (amended): `stop_event_stream(alias)` is a no-op (no error, no
kill) when no handle is registered; when a handle with pid `p` exists it
immediately force-kills the process (no graceful-termination request, no
bounded wait), always reaps it, and always removes the handle — and a
second stop right after any stop is a no-op. -/
theorem C8_stop_behaviour (st : StreamState) (host_alias : String) :
    (st.streams host_alias = none → stop_event_stream st host_alias = ([], st))
  ∧ (∀ pid, st.streams host_alias = some pid →
      (stop_event_stream st host_alias).1 = [.kill pid, .reap pid]
      ∧ (stop_event_stream st host_alias).2.streams host_alias = none
      ∧ (stop_event_stream st host_alias).2.live = st.live.erase pid)
  ∧ stop_event_stream (stop_event_stream st host_alias).2 host_alias
      = ([], (stop_event_stream st host_alias).2) := by
  refine ⟨stop_event_stream_none st host_alias, ?_, ?_⟩
  · intro pid hsome
    unfold stop_event_stream
    rw [hsome]
    refine ⟨rfl, ?_, rfl⟩
    simp
  · cases hs : st.streams host_alias with
    | none =>
        have h := stop_event_stream_none st host_alias hs
        rw [h]
        exact h
    | some pid =>
        apply stop_event_stream_none
        unfold stop_event_stream
        rw [hs]
        simp

/-- C8 witness: on the registry holding pid 1 for `h1`, the handle is
removed, pid 1 is reaped out of the live table, and a second stop is a
no-op. -/
theorem C8_witness :
    (stop_event_stream
        { streams := fun a => if a = "h1" then some 1 else none, live := [1], nextPid := 2 }
        "h1").2.streams "h1" = none
  ∧ (stop_event_stream
        { streams := fun a => if a = "h1" then some 1 else none, live := [1], nextPid := 2 }
        "h1").2.live = [1].erase 1
  ∧ stop_event_stream
        (stop_event_stream
          { streams := fun a => if a = "h1" then some 1 else none, live := [1], nextPid := 2 }
          "h1").2 "h1"
      = ([], (stop_event_stream
          { streams := fun a => if a = "h1" then some 1 else none, live := [1], nextPid := 2 }
          "h1").2) := by
  have h := C8_stop_behaviour
    { streams := fun a => if a = "h1" then some 1 else none, live := [1], nextPid := 2 } "h1"
  exact ⟨(h.2.1 1 rfl).2.1, (h.2.1 1 rfl).2.2, h.2.2⟩

/-- C9: evaluating `docker_events` at any host — client.py's
`docker_events` calls `self.connection_pool.stream_docker_events`, a
method `ConnectionPool` does not define, so the caller-facing streaming
operation raises `AttributeError` at its first iteration instead of
yielding decoded events; the per-line decode-and-discard logic
(`parse_docker_events_json`) exists but is unreachable from it. -/
theorem C9_docker_events_raises (host : String) :
    docker_events host
      = .error (.attributeError
          "'ConnectionPool' object has no attribute 'stream_docker_events'") := rfl

/-- A pool executor that answers `docker inspect` with the bare output
`null` (valid JSON, not an object) and exit code 0. -/
def execInspectNull : String → String → Except PyErr String := fun _ _ => .ok "null"

/-- A pool executor whose `docker inspect` fails with the daemon's
`No such object` message. -/
def execInspectMissing : String → String → Except PyErr String := fun _ _ =>
  .error (.dockerCommandError "Docker command failed: Error: No such object: c1")

/-- Python's `json.loads` on the two outputs the C10 scenarios use:
`"null"` parses to JSON `null`; anything else used here fails to parse. -/
def loadsNullOnly : String → Except String PyJson := fun s =>
  if s = "null" then .ok .null else .error "Expecting value: line 1 column 1 (char 0)"

/-- C10 counterexample: the underlying `docker inspect` *succeeds* (exit
0, stdout `null`), yet `inspect_container` returns the absence result
`None` — `json.loads` yields a non-dict, `parse_docker_inspect` maps it
to `None`, and that is returned as-is.  So `None` is not returned
*exactly* when the command fails with a `No such object` message. -/
theorem C10_counterexample :
    inspect_container execInspectNull loadsNullOnly "h1" "c1" = .ok none
  ∧ execInspectNull "h1" ("inspect " ++ "c1") = .ok "null" :=
  ⟨rfl, rfl⟩

/-- C10 (amended): `inspect_container` returns `None` when the command
fails with a `DockerCommandError` containing `No such object`, and also
when the command succeeds but its output does not parse to an object (the
parse result is returned as-is); a `DockerCommandError` without
`No such object` re-raises, and every non-`DockerCommandError` failure
propagates unchanged. -/
theorem C10_inspect_behaviour (execF : String → String → Except PyErr String)
    (loads : String → Except String PyJson) (host cid : String) :
    (∀ m, execF host ("inspect " ++ cid) = .error (.dockerCommandError m) →
        inspect_container execF loads host cid
          = if pyIn "No such object" m then .ok none else .error (.dockerCommandError m))
  ∧ (∀ out, execF host ("inspect " ++ cid) = .ok out →
        inspect_container execF loads host cid = .ok (parse_docker_inspect loads out))
  ∧ (∀ e, execF host ("inspect " ++ cid) = .error e → e.isDockerCmd = false →
        inspect_container execF loads host cid = .error e) := by
  refine ⟨?_, ?_, ?_⟩
  · intro m hm
    unfold inspect_container
    rw [hm]
  · intro out hout
    unfold inspect_container
    rw [hout]
  · intro e he hnd
    unfold inspect_container
    rw [he]
    cases e with
    | dockerCommandError m => simp [PyErr.isDockerCmd] at hnd
    | attributeError m => rfl
    | valueError m => rfl
    | hostNotFoundError m => rfl
    | sshConnectionError m => rfl

/-- C10 witness: a `DockerCommandError` carrying `No such object` is
turned into the absence result `None`. -/
theorem C10_witness :
    inspect_container execInspectMissing loadsNullOnly "h1" "c1" = .ok none := by
  have h := (C10_inspect_behaviour execInspectMissing loadsNullOnly "h1" "c1").1
    "Docker command failed: Error: No such object: c1" rfl
  rw [h]
  rfl
